import Mathlib

/-!
Verification of the embedding-based similarity search subsystem of the
`fulfill` repository.  The Python sources are shallowly embedded:

* `src/models/clip_model.py` — `CLIPSimilaritySearcher.get_top_k_similar`,
  `load_embeddings`, `encode_image`;
* `src/utils/image_utils.py` — `process_batch`;
* `src/data_uploading/upload_data_to_vectorDB.py` — `validate_vector`,
  `validate_csv_columns`, `upload_embeddings`;
* `src/configs/db_config.py` / `src/database/database_schema.py` —
  `COLUMN_DEFINITIONS`, `get_column_names`, upsert query construction;
* `src/data_uploading/create_embedding.py` — `create_embeddings`.

Floating-point scores are modelled as rationals (every float is a rational),
and the real-valued L2 normalisation of the embedding store is modelled over
`ℝ`.
-/

namespace Fulfill

/-! ### Similarity ranker — `clip_model.py`, `get_top_k_similar`

The Python code is
`top_indices = np.argsort(similarity_scores)[::-1][:k]` followed by
`[(self.embedd_df.iloc[idx]['img_path'], float(similarity_scores[idx])) for idx in top_indices]`.
`np.argsort` sorts indices by ascending score; we model it with the stable
tie order (equal scores keep ascending index order, which is what numpy's
sort produces on the small arrays used in the counterexamples below), and
the slice `[::-1]` is `List.reverse`. -/

/-- Score of row `i` of the similarity array (out-of-range reads default to
`0`; all theorems only use in-range indices). -/
def scoreAt (scores : List ℚ) (i : ℕ) : ℚ := scores.getD i 0

/-- The total order realised by the ascending `np.argsort`: sort by score,
ties by ascending index (stability). -/
def argLE (scores : List ℚ) (i j : ℕ) : Prop :=
  scoreAt scores i < scoreAt scores j ∨
    (scoreAt scores i = scoreAt scores j ∧ i ≤ j)

instance (scores : List ℚ) : DecidableRel (argLE scores) := fun i j => by
  unfold argLE; infer_instance

/-- Ascending argsort of the score array: the indices `0, …, n-1` sorted by
`argLE`. -/
def argsort (scores : List ℚ) : List ℕ :=
  List.insertionSort (argLE scores) (List.range scores.length)

/-- Index list actually used by `get_top_k_similar`:
`np.argsort(similarity_scores)[::-1][:k]`. -/
def topIndices (scores : List ℚ) (k : ℕ) : List ℕ :=
  ((argsort scores).reverse).take k

/-- Embedding of `CLIPSimilaritySearcher.get_top_k_similar`.  `ids` is the
`img_path` column of `embedd_df`, in store order. -/
def get_top_k_similar (ids : List String) (scores : List ℚ) (k : ℕ) :
    List (String × ℚ) :=
  (topIndices scores k).map fun i => (ids.getD i "", scoreAt scores i)

theorem argLE_total (scores : List ℚ) (i j : ℕ) :
    argLE scores i j ∨ argLE scores j i := by
  unfold argLE
  rcases lt_trichotomy (scoreAt scores i) (scoreAt scores j) with h | h | h
  · exact Or.inl (Or.inl h)
  · rcases Nat.le_total i j with hij | hij
    · exact Or.inl (Or.inr ⟨h, hij⟩)
    · exact Or.inr (Or.inr ⟨h.symm, hij⟩)
  · exact Or.inr (Or.inl h)

theorem argLE_trans (scores : List ℚ) {i j l : ℕ}
    (h₁ : argLE scores i j) (h₂ : argLE scores j l) : argLE scores i l := by
  unfold argLE at *
  rcases h₁ with h₁ | ⟨e₁, n₁⟩
  · rcases h₂ with h₂ | ⟨e₂, _⟩
    · exact Or.inl (h₁.trans h₂)
    · exact Or.inl (e₂ ▸ h₁)
  · rcases h₂ with h₂ | ⟨e₂, n₂⟩
    · exact Or.inl (e₁ ▸ h₂)
    · exact Or.inr ⟨e₁.trans e₂, n₁.trans n₂⟩

theorem sorted_argsort (scores : List ℚ) :
    List.Sorted (argLE scores) (argsort scores) := by
  haveI : IsTotal ℕ (argLE scores) := ⟨argLE_total scores⟩
  haveI : IsTrans ℕ (argLE scores) := ⟨fun _ _ _ => argLE_trans scores⟩
  exact List.sorted_insertionSort (argLE scores) (List.range scores.length)

theorem argsort_perm (scores : List ℚ) :
    (argsort scores).Perm (List.range scores.length) :=
  List.perm_insertionSort _ _

theorem length_argsort (scores : List ℚ) :
    (argsort scores).length = scores.length := by
  simpa using (argsort_perm scores).length_eq

theorem nodup_argsort (scores : List ℚ) : (argsort scores).Nodup :=
  ((argsort_perm scores).nodup_iff).mpr (List.nodup_range _)

/-- Rows listed by `topIndices` come in non-increasing score order. -/
theorem topIndices_pairwise (scores : List ℚ) (k : ℕ) :
    List.Pairwise (fun i j => argLE scores j i) (topIndices scores k) := by
  have hrev : List.Pairwise (fun i j => argLE scores j i)
      (argsort scores).reverse :=
    List.pairwise_reverse.mpr (sorted_argsort scores)
  exact hrev.sublist (List.take_sublist _ _)

theorem topIndices_nodup (scores : List ℚ) (k : ℕ) :
    (topIndices scores k).Nodup :=
  (List.nodup_reverse.mpr (nodup_argsort scores)).sublist
    (List.take_sublist _ _)

/-- C6. For every loaded store and every `k ≥ 1`, `get_top_k_similar`
returns exactly `min k |S|` results, sorted by non-increasing similarity
score; in particular `k > |S|` yields all `|S|` rows fully ranked, without
error. -/
theorem get_top_k_length_and_sorted (ids : List String) (scores : List ℚ)
    (k : ℕ) (hk : 1 ≤ k) :
    (get_top_k_similar ids scores k).length = min k scores.length ∧
      List.Pairwise (fun a b : String × ℚ => b.2 ≤ a.2)
        (get_top_k_similar ids scores k) := by
  constructor
  · simp [get_top_k_similar, topIndices, length_argsort]
  · have hpw := topIndices_pairwise scores k
    refine List.Pairwise.map _ (fun i j hij => ?_) hpw
    rcases hij with h | ⟨h, _⟩
    · exact le_of_lt h
    · exact le_of_eq h

/-- Witness for C6: the toy store of spec Scenario A, queried with
`k = 5 > |S| = 3`, returns all three rows sorted. -/
theorem get_top_k_length_and_sorted_witness :
    1 ≤ 5 ∧
      ((get_top_k_similar ["id0", "id1", "id2"]
            [1, 0, (707 : ℚ) / 1000] 5).length =
          min 5 ([1, 0, (707 : ℚ) / 1000] : List ℚ).length ∧
        List.Pairwise (fun a b : String × ℚ => b.2 ≤ a.2)
          (get_top_k_similar ["id0", "id1", "id2"]
            [1, 0, (707 : ℚ) / 1000] 5)) :=
  ⟨by decide,
    get_top_k_length_and_sorted ["id0", "id1", "id2"]
      [1, 0, (707 : ℚ) / 1000] 5 (by decide)⟩

/-- Counterexample to C1 as stated.  Two stored rows with equal similarity
score `1`: the query returns row 1 before row 0, i.e. tied results appear in
descending — not ascending — original store insertion order. -/
theorem ties_not_ascending_counterexample :
    get_top_k_similar ["a", "b"] [1, 1] 2 = [("b", 1), ("a", 1)] ∧
      topIndices [1, 1] 2 = [1, 0] ∧
      ¬ List.Pairwise
          (fun i j => scoreAt [1, 1] i = scoreAt [1, 1] j → i < j)
          (topIndices [1, 1] 2) := by
  refine ⟨by decide, by decide, ?_⟩
  decide

/-- C1 amended: ties in score are returned in *descending* original store
insertion order (the code reverses an ascending stable argsort, which
inverts the tie order).  The output is still deterministic. -/
theorem ties_descending (scores : List ℚ) (k : ℕ) :
    List.Pairwise
      (fun i j => scoreAt scores i = scoreAt scores j → j < i)
      (topIndices scores k) := by
  have h₁ := topIndices_pairwise scores k
  have h₂ : List.Pairwise (fun i j : ℕ => i ≠ j) (topIndices scores k) :=
    topIndices_nodup scores k
  refine (h₁.and h₂).imp ?_
  rintro i j ⟨hle, hne⟩ heq
  rcases hle with h | ⟨_, h⟩
  · exact absurd heq (ne_of_gt h)
  · exact lt_of_le_of_ne h (Ne.symm hne)

/-! ### Embedding store load — `clip_model.py`, `load_embeddings`

The Python code builds
`torch.tensor(embeddings_list)` and divides by
`dataset_features.norm(dim=-1, keepdim=True)`.  `torch.tensor` raises a
`ValueError` when the nested list is ragged (a row's length differs from the
first row's), which is the spec taxonomy's dimension-mismatch error; there
is no check on the norm, so a zero-norm row is divided by zero (NaN in IEEE
arithmetic, `0` in this real-valued model) without any error.  Vectors are
modelled as lists of reals. -/

/-- Sum of squares of a vector — the square of its L2 norm. -/
def sumSq (v : List ℝ) : ℝ := (v.map fun x => x * x).sum

/-- L2 norm of a vector, as computed by `tensor.norm(dim=-1)`. -/
noncomputable def l2norm (v : List ℝ) : ℝ := Real.sqrt (sumSq v)

/-- One row of `dataset_features / dataset_features.norm(dim=-1, keepdim=True)`. -/
noncomputable def normalizeRow (v : List ℝ) : List ℝ :=
  v.map fun x => x / l2norm v

/-- Store-load-time failures of the spec's error taxonomy.
`dimensionMismatch` embeds the `ValueError` that `torch.tensor` raises on a
ragged embedding list. -/
inductive LoadError
  | dimensionMismatch
  | degenerateVector
deriving DecidableEq

/-- Embedding of `CLIPSimilaritySearcher.load_embeddings`, from the parsed
vector table onwards: build the matrix (failing when a row's length differs
from the first row's, as `torch.tensor` does) and divide every row by its
L2 norm.  CSV reading and `ast.literal_eval` parsing are outside the claims
and are not modelled; the input is the list of raw vectors. -/
noncomputable def load_embeddings :
    List (List ℝ) → Except LoadError (List (List ℝ))
  | [] => .ok []
  | v :: rest =>
    if ∀ r ∈ rest, r.length = v.length then
      .ok ((v :: rest).map normalizeRow)
    else .error .dimensionMismatch

theorem sumSq_nonneg (v : List ℝ) : 0 ≤ sumSq v := by
  refine List.sum_nonneg fun x hx => ?_
  rcases List.mem_map.mp hx with ⟨y, _, rfl⟩
  exact mul_self_nonneg y

theorem sumSq_normalizeRow (v : List ℝ) (h : sumSq v ≠ 0) :
    sumSq (normalizeRow v) = 1 := by
  have hs : l2norm v * l2norm v = sumSq v :=
    Real.mul_self_sqrt (sumSq_nonneg v)
  have hmap : sumSq (normalizeRow v) =
      (v.map fun x => x * x * (l2norm v * l2norm v)⁻¹).sum := by
    unfold sumSq normalizeRow
    rw [List.map_map]
    congr 1
    refine List.map_congr_left fun x _ => ?_
    simp only [Function.comp]
    rw [div_mul_div_comm, div_eq_mul_inv, mul_inv]
  rw [hmap, List.sum_map_mul_right, hs]
  have : (v.map fun x => x * x).sum = sumSq v := rfl
  rw [this, mul_inv_cancel₀ h]

/-- C3. If every raw vector of the table has non-zero L2 norm, then after a
successful `load_embeddings` every row of the stored matrix has unit L2 norm
(stated as sum of squares equal to `1`, which for the non-negative L2 norm is
the same as norm `1`). -/
theorem load_embeddings_rows_unit_norm (table m : List (List ℝ))
    (hok : load_embeddings table = .ok m)
    (hnz : ∀ v ∈ table, sumSq v ≠ 0) :
    ∀ r ∈ m, sumSq r = 1 := by
  cases table with
  | nil =>
    simp only [load_embeddings, Except.ok.injEq] at hok
    subst hok
    intro r hr
    exact absurd hr (List.not_mem_nil r)
  | cons v rest =>
    by_cases hdim : ∀ r ∈ rest, r.length = v.length
    · simp only [load_embeddings, if_pos hdim, Except.ok.injEq] at hok
      subst hok
      intro r hr
      rcases List.mem_map.mp hr with ⟨w, hw, rfl⟩
      exact sumSq_normalizeRow w (hnz w hw)
    · simp [load_embeddings, if_neg hdim] at hok

/-- Witness for C3 at the concrete table `[[3, 4]]`: the load succeeds and
produces the single row `normalizeRow [3, 4]`, whose squared norm is `1`. -/
theorem load_embeddings_rows_unit_norm_witness :
    load_embeddings [[(3 : ℝ), 4]] = .ok [normalizeRow [(3 : ℝ), 4]] ∧
      sumSq [(3 : ℝ), 4] ≠ 0 ∧
      sumSq (normalizeRow [(3 : ℝ), 4]) = 1 := by
  have hok : load_embeddings [[(3 : ℝ), 4]] =
      .ok [normalizeRow [(3 : ℝ), 4]] := by
    simp [load_embeddings]
  have hnz : sumSq [(3 : ℝ), 4] ≠ 0 := by
    simp [sumSq]; norm_num
  refine ⟨hok, hnz, ?_⟩
  exact load_embeddings_rows_unit_norm [[(3 : ℝ), 4]]
    [normalizeRow [(3 : ℝ), 4]] hok
    (by intro v hv; rw [List.mem_singleton] at hv; rwa [hv])
    (normalizeRow [(3 : ℝ), 4]) (List.mem_singleton.mpr rfl)

/-- C7. A vector table in which some row's length differs from the first
row's makes store construction fail with the dimension-mismatch error, so no
query can be served from it. -/
theorem load_embeddings_dimension_mismatch (v : List ℝ)
    (rest : List (List ℝ)) (h : ∃ r ∈ rest, r.length ≠ v.length) :
    load_embeddings (v :: rest) = .error .dimensionMismatch := by
  have hneg : ¬ ∀ r ∈ rest, r.length = v.length := by
    rcases h with ⟨r, hr, hne⟩
    exact fun hall => hne (hall r hr)
  simp [load_embeddings, if_neg hneg]

/-- Witness for C7: a toy table whose second row has a different dimension
than the first (the 511-among-512 scenario scaled down to 1-among-2). -/
theorem load_embeddings_dimension_mismatch_witness :
    ([(1 : ℝ)] : List ℝ).length ≠ ([(1 : ℝ), 0] : List ℝ).length ∧
      load_embeddings [[(1 : ℝ), 0], [(1 : ℝ)]] =
        .error .dimensionMismatch := by
  refine ⟨by simp, ?_⟩
  exact load_embeddings_dimension_mismatch [(1 : ℝ), 0] [[(1 : ℝ)]]
    ⟨[(1 : ℝ)], List.mem_singleton.mpr rfl, by simp⟩

/-- Counterexample to C8 as stated.  The table `[[0, 0]]` contains a vector
of zero L2 norm, yet `load_embeddings` returns `.ok` — the code has no
degenerate-vector check and never aborts; the zero row is divided by its
zero norm (NaN in the code's IEEE arithmetic, `0` in this real model). -/
theorem zero_norm_not_rejected_counterexample :
    sumSq [(0 : ℝ), 0] = 0 ∧
      load_embeddings [[(0 : ℝ), 0]] = .ok [normalizeRow [(0 : ℝ), 0]] := by
  constructor
  · simp [sumSq]
  · simp [load_embeddings]

/-- C8 amended: `load_embeddings` does not reject zero-norm vectors.  For
any dimension-consistent table whose first row has zero L2 norm, store
construction still completes normally (no `DegenerateVectorError` exists in
the code); the degenerate row is divided by its zero norm. -/
theorem load_embeddings_accepts_zero_norm (v : List ℝ)
    (rest : List (List ℝ)) (hdim : ∀ r ∈ rest, r.length = v.length)
    (hz : sumSq v = 0) :
    load_embeddings (v :: rest) = .ok ((v :: rest).map normalizeRow) := by
  simp [load_embeddings, if_pos hdim]

/-- Witness for the amended C8 at the concrete table `[[0, 0]]`. -/
theorem load_embeddings_accepts_zero_norm_witness :
    sumSq [(0 : ℝ), 0] = 0 ∧
      load_embeddings [[(0 : ℝ), 0]] = .ok [normalizeRow [(0 : ℝ), 0]] ∧
      load_embeddings [[(0 : ℝ), 0]] ≠ .error .degenerateVector := by
  have hz : sumSq [(0 : ℝ), 0] = 0 := by simp [sumSq]
  have hok := load_embeddings_accepts_zero_norm [(0 : ℝ), 0] []
    (by intro r hr; exact absurd hr (List.not_mem_nil r)) hz
  refine ⟨hz, ?_, ?_⟩
  · simpa using hok
  · intro hcontra
    rw [show load_embeddings [[(0 : ℝ), 0]] =
        .ok ([[(0 : ℝ), 0]].map normalizeRow) from hok] at hcontra
    exact Except.noConfusion hcontra

/-! ### Encoder paths — `image_utils.py` `process_batch` and
`clip_model.py` `encode_image`

`process_batch` is documented as "Process a batch of images through CLIP
model", but its body is `features = tensors` inside `torch.no_grad()`: the
model is never invoked and no normalisation happens, so each input tensor is
returned unchanged (the `torch.stack`/`cpu().numpy()` round trip is the
identity on values).  `encode_image` runs `model.encode_image` and divides by
the L2 norm.  The pretrained encoder is external; it is a parameter `enc` of
the single-image path. -/

/-- Embedding of `process_batch` (`image_utils.py`).  An empty batch returns
`[]`; otherwise the `(path, tensor)` pairs come back unchanged — the line
that should call the model reads `features = tensors`. -/
def process_batch {α : Type} (batch : List (String × α)) :
    List (String × α) :=
  if batch.isEmpty then [] else batch

/-- Embedding of the encoding performed by
`CLIPSimilaritySearcher.encode_image` on a canonical tensor `t`: apply the
encoder and divide the features by their L2 norm.  Image decoding and
preprocessing, which precede this in the source, are outside the claim (it
quantifies over canonical image tensors). -/
noncomputable def encode_image (enc : List ℝ → List ℝ) (t : List ℝ) :
    List ℝ :=
  normalizeRow (enc t)

/-- C2 fails on the code: `process_batch` returns the canonical tensor
`[2, 0]` unchanged, while the query path `encode_image` (here with the
identity encoder) returns the unit-normalised `[1, 0]`.  Batch and single
encoding do not have the same semantics — the batch path never applies the
model or the normalisation, contradicting `process_batch`'s own docstring
"Process a batch of images through CLIP model". -/
theorem process_batch_skips_encoder :
    process_batch [("p", ([(2 : ℝ), 0] : List ℝ))] =
        [("p", ([(2 : ℝ), 0] : List ℝ))] ∧
      encode_image id [(2 : ℝ), 0] = [(1 : ℝ), 0] ∧
      ([(2 : ℝ), 0] : List ℝ) ≠ [(1 : ℝ), 0] := by
  refine ⟨rfl, ?_, ?_⟩
  · have hs : sumSq [(2 : ℝ), 0] = 4 := by
      simp [sumSq]; norm_num
    have hnorm : l2norm [(2 : ℝ), 0] = 2 := by
      rw [l2norm, hs, show (4 : ℝ) = 2 ^ 2 by norm_num,
        Real.sqrt_sq (by norm_num)]
    simp [encode_image, normalizeRow, hnorm]
  · intro h
    have := List.head_eq_of_cons_eq h
    norm_num at this

/-! ### Vector persistence — `upload_data_to_vectorDB.py`

`validate_vector` checks a row's vector field against the anchored regex
`^\[([-+]?[0-9]*\.?[0-9]+(?:[eE][-+]?[0-9]+)?,\s*)*[-+]?[0-9]*\.?[0-9]+(?:[eE][-+]?[0-9]+)?\]$`
after `value.strip()`.  The matcher below is a deterministic functional
rendering of that regex: a number is an optional sign, then either digits or
`digits* . digits+`, then an optional exponent; elements are separated by a
comma followed by `\s*`; the whole stripped string must be consumed.  (The
only regex backtracking points — shrinking the leading digit run and
dropping a half-parsed exponent — cannot rescue a match, because the
character that follows a number must be `,` or `]`, so the deterministic
parse accepts exactly the regex language.)  Recursion over the element list
uses a fuel bounded by the string length, which dominates the number of
elements. -/

/-- Whitespace class of the regex `\s` (and of `str.strip`) for the ASCII
characters that can occur in the CSV fields. -/
def isSpaceChar (c : Char) : Bool :=
  c == ' ' || c == '\t' || c == '\n' || c == '\r' || c == '\x0b' ||
    c == '\x0c'

/-- Python `str.strip()` on the character list of a string. -/
def pyStrip (s : List Char) : List Char :=
  ((s.dropWhile isSpaceChar).reverse.dropWhile isSpaceChar).reverse

/-- Consume a maximal digit run, returning how many digits were read and the
remainder. -/
def takeDigits (s : List Char) : ℕ × List Char :=
  ((s.takeWhile Char.isDigit).length, s.dropWhile Char.isDigit)

/-- Consume an optional sign `[-+]?`. -/
def dropSign : List Char → List Char
  | c :: rest => if c == '-' || c == '+' then rest else c :: rest
  | [] => []

/-- Consume the optional exponent `(?:[eE][-+]?[0-9]+)?`.  A bare `e` with no
digits fails the whole match, because the character after a number must be
`,` or `]`. -/
def dropExponent : List Char → Option (List Char)
  | c :: rest =>
    if c == 'e' || c == 'E' then
      let r := dropSign rest
      let (n, r2) := takeDigits r
      if n == 0 then none else some r2
    else some (c :: rest)
  | [] => some []

/-- Consume one number `[-+]?[0-9]*\.?[0-9]+(?:[eE][-+]?[0-9]+)?`, returning
the remainder on success. -/
def dropNumber (s : List Char) : Option (List Char) :=
  let s1 := dropSign s
  let (d1, r1) := takeDigits s1
  match r1 with
  | '.' :: r2 =>
    let (d2, r3) := takeDigits r2
    if d2 == 0 then none else dropExponent r3
  | _ => if d1 == 0 then none else dropExponent r1

/-- Match the element list after the opening `[`: numbers separated by
`,\s*`, terminated by `]` at the end of the string. -/
def matchElems : ℕ → List Char → Bool
  | 0, _ => false
  | fuel + 1, s =>
    match dropNumber s with
    | none => false
    | some r =>
      match r with
      | ',' :: r2 => matchElems fuel (r2.dropWhile isSpaceChar)
      | [']'] => true
      | _ => false

/-- Embedding of `EmbeddingUploader.validate_vector`. -/
def validate_vector (value : String) : Bool :=
  match pyStrip value.data with
  | '[' :: rest => matchElems (rest.length + 1) rest
  | _ => false

/-- The `COLUMN_DEFINITIONS` of `src/configs/db_config.py`, with
`CONST.EMBEDED_SIZE = 512` (from `src/utils/utils.py`). -/
def COLUMN_DEFINITIONS : List (String × String) :=
  [("file_id", "TEXT"),
   ("filename", "TEXT"),
   ("file_extension", "TEXT"),
   ("folder_name", "TEXT"),
   ("folder_url", "TEXT"),
   ("direct_url", "TEXT"),
   ("download_url", "TEXT"),
   ("file_size", "TEXT"),
   ("embedded_design_images", "VECTOR(512)"),
   ("modified_date", "TEXT"),
   ("collection_timestamp", "TEXT")]

/-- Python `name.strip(Char)`: remove leading and trailing occurrences of
one character, as `database_schema.get_column_names` does with `"`. -/
def stripCharEnds (q : Char) (s : String) : String :=
  ⟨((s.data.dropWhile (· == q)).reverse.dropWhile (· == q)).reverse⟩

/-- Embedding of `database_schema.get_column_names`. -/
def get_column_names : List String :=
  COLUMN_DEFINITIONS.map fun p => stripCharEnds '"' p.1

/-- Embedding of `EmbeddingUploader.validate_csv_columns`: the CSV header
must be set-equal to the table's column names. -/
def validate_csv_columns (header : List String) : Bool :=
  header.all (fun c => get_column_names.contains c) &&
    get_column_names.all (fun c => header.contains c)

/-- Indices of the rows whose `embedded_design_images` field fails
`validate_vector` — the `invalid_rows.index.tolist()` that
`validate_csv_data` logs before returning `False`.  A batch row is reduced
to that field, the only one this validation inspects. -/
def invalid_vector_rows (vecs : List String) : List ℕ :=
  (List.range vecs.length).filter fun i => !(validate_vector (vecs.getD i ""))

/-- Failure modes of `upload_embeddings`: the two `ValueError`s it raises
before touching the database.  `schemaValidation` carries the offending row
indices (the spec taxonomy's `SchemaValidationError`). -/
inductive UploadError
  | columnMismatch
  | schemaValidation (rows : List ℕ)
deriving DecidableEq

/-- Embedding of `EmbeddingUploader.upload_embeddings` for a present CSV:
column validation, then per-row vector validation, and only then the
staged-copy upsert.  The database is modelled as the list of stored rows and
the two-phase `COPY` + `INSERT … ON CONFLICT` write is abstracted to
appending the batch (its conflict-key construction is modelled separately
below); both validation failures happen before `CREATE TEMP TABLE`, so they
return the database unchanged together with the raised error. -/
def upload_embeddings (header : List String) (vecs : List String)
    (db : List String) : List String × Option UploadError :=
  if !(validate_csv_columns header) then (db, some .columnMismatch)
  else
    let bad := invalid_vector_rows vecs
    if !bad.isEmpty then (db, some (.schemaValidation bad))
    else (db ++ vecs, none)

/-- C4. A batch containing a row whose vector field is not a well-formed
bracketed numeric sequence is rejected whole with the schema-validation
failure naming the offending row, and the database is left unchanged: zero
rows are written. -/
theorem upload_rejects_malformed_vector (header : List String)
    (vecs : List String) (db : List String) (i : ℕ)
    (hcols : validate_csv_columns header = true) (hi : i < vecs.length)
    (hbad : validate_vector (vecs.getD i "") = false) :
    upload_embeddings header vecs db =
        (db, some (.schemaValidation (invalid_vector_rows vecs))) ∧
      i ∈ invalid_vector_rows vecs := by
  have hmem : i ∈ invalid_vector_rows vecs := by
    refine List.mem_filter.mpr ⟨List.mem_range.mpr hi, ?_⟩
    simp only [List.getD, List.get?_eq_getElem?] at hbad
    simp [hbad]
  have hne : invalid_vector_rows vecs ≠ [] := List.ne_nil_of_mem hmem
  refine ⟨?_, hmem⟩
  unfold upload_embeddings
  rw [hcols]
  simp only [Bool.not_true, Bool.false_eq_true, if_false]
  rw [List.isEmpty_eq_false.mpr hne]
  simp

/-- Witness for C4 at the spec's Scenario B: a one-row batch whose vector
field is the unterminated string `"[1,2"`, uploaded against the configured
column set, is rejected with the schema-validation error naming row 0, and
the (empty) database stays empty. -/
theorem upload_rejects_malformed_vector_witness :
    validate_csv_columns get_column_names = true ∧
      0 < (["[1,2"] : List String).length ∧
      validate_vector "[1,2" = false ∧
      upload_embeddings get_column_names ["[1,2"] [] =
        ([], some (.schemaValidation (invalid_vector_rows ["[1,2"]))) ∧
      0 ∈ invalid_vector_rows ["[1,2"] :=
  ⟨by decide, by decide, by decide,
    (upload_rejects_malformed_vector get_column_names ["[1,2"] [] 0
      (by decide) (by decide) (by decide)).1,
    (upload_rejects_malformed_vector get_column_names ["[1,2"] [] 0
      (by decide) (by decide) (by decide)).2⟩

/-! ### Upsert query construction — `upload_data_to_vectorDB.py`,
`upload_embeddings` lines 120–164

After validation the code sets `unique_key = "id"`, filters
`insert_columns = [col for col in target_columns if col not in
{'created_at', 'updated_at'}]`, builds
`update_fields = [col for col in insert_columns if col != unique_key]`,
and appends a literal `updated_at = to_char(...)` clause to the SET list of
`INSERT … ON CONFLICT (id) DO UPDATE SET …`.  Only the column names of that
query matter to claim C9; the SQL text around them is fixed. -/

/-- The literal conflict key of the upsert query. -/
def unique_key : String := "id"

/-- The `excluded_columns` set of `upload_embeddings`. -/
def excluded_columns : List String := ["created_at", "updated_at"]

/-- Embedding of `insert_columns`. -/
def insert_columns : List String :=
  get_column_names.filter fun c => !(excluded_columns.contains c)

/-- Embedding of `update_fields`. -/
def update_fields : List String :=
  insert_columns.filter fun c => c != unique_key

/-- The columns assigned in the `DO UPDATE SET` clause: every update field
plus the literal trailing `updated_at = to_char(...)` assignment. -/
def set_clause_columns : List String := update_fields ++ ["updated_at"]

/-- C9. The upsert statement is built with the literal conflict key `id` and
a SET assignment to a literal `updated_at` column, yet under the shipped
`COLUMN_DEFINITIONS` neither `id` nor `updated_at` is a column of the target
table (so the generated SQL references nonexistent columns). -/
theorem upsert_uses_columns_absent_from_schema :
    unique_key = "id" ∧
      "updated_at" ∈ set_clause_columns ∧
      unique_key ∉ get_column_names ∧
      "updated_at" ∉ get_column_names ∧
      get_column_names =
        ["file_id", "filename", "file_extension", "folder_name",
         "folder_url", "direct_url", "download_url", "file_size",
         "embedded_design_images", "modified_date",
         "collection_timestamp"] := by
  refine ⟨rfl, ?_, ?_, ?_, ?_⟩ <;> decide

/-! ### Batch embedding pipeline — `create_embedding.py`,
`create_embeddings`

The model-loading, file-system walk and CSV write are I/O glue; the
embedded function takes the discovered image list and a per-image decode
outcome (`load_and_preprocess_image` returns `None` on any decode or
preprocess failure and the tensor otherwise) and mirrors the thread-chunk
partitioning, the per-worker batching through `process_batch`, the merge of
worker results, and the end-of-run summary.  Two source facts matter for the
claims:

* `chunk_size = len(images) // num_threads` and
  `range(0, len(images), chunk_size)` — Python's `range` raises
  `ValueError: range() arg 3 must not be zero` when `chunk_size == 0`,
  which happens exactly when the image list is empty (for `n ≥ 1`,
  `num_threads ≤ max(1, n // 20) ≤ n`, so `chunk_size ≥ 1`);
* `error_count` is initialised to `0` (with its `error_lock`) and printed
  as `Errors encountered: {error_count}`, but no statement ever increments
  it, so the summary always reports zero errors.

Worker results are merged into `image_features_dict` keyed by path; with
distinct image paths (guaranteed by `os.walk`) the merge is concatenation in
chunk order, which is what the model uses (thread completion order only
permutes chunks and the concrete claims below use a single chunk). -/

/-- Errors raised during `create_embeddings` before any output is written.
`rangeStepZero` embeds the `ValueError` raised by `range(0, n, 0)`. -/
inductive PipelineError
  | rangeStepZero
deriving DecidableEq

/-- Embedding of the `num_threads` computation (integer division). -/
def num_threads (n : ℕ) (cuda : Bool) : ℕ :=
  if cuda then min 4 (max 1 (n / 50)) else min 8 (max 1 (n / 20))

/-- Embedding of the per-worker `batch_size`. -/
def pipeline_batch_size (cuda : Bool) : ℕ := if cuda then 16 else 4

/-- Embedding of `chunk_size = len(images) // num_threads`. -/
def chunk_size (n : ℕ) (cuda : Bool) : ℕ := n / num_threads n cuda

/-- The starts produced by `range(0, n, cs)` for `cs > 0`:
`0, cs, 2·cs, …`, of which there are `⌈n / cs⌉`. -/
def chunk_starts (n cs : ℕ) : List ℕ :=
  (List.range ((n + cs - 1) / cs)).map (· * cs)

/-- The slices `images[i : i + cs]` for each start `i`. -/
def build_chunks (images : List String) (cs : ℕ) : List (List String) :=
  (chunk_starts images.length cs).map fun i => (images.drop i).take cs

/-- The fixup `image_chunks[-2].extend(image_chunks[-1]);
image_chunks = image_chunks[:-1]`, applied when there are more chunks than
threads. -/
def merge_trailing_chunk (chunks : List (List String)) (nt : ℕ) :
    List (List String) :=
  if nt < chunks.length then
    let kept := chunks.dropLast
    kept.dropLast ++ [kept.getLast?.getD [] ++ chunks.getLast?.getD []]
  else chunks

/-- Embedding of the loop body of `worker_thread`: grow `batch` with each
successfully decoded image, flush through `process_batch` once the batch
reaches `bs`, and flush the non-empty remainder at the end. -/
def worker_go {α : Type} (decode : String → Option α) (bs : ℕ) :
    List String → List (String × α) → List (String × α) →
      List (String × α)
  | [], batch, results =>
    if batch.isEmpty then results else results ++ process_batch batch
  | p :: ps, batch, results =>
    match decode p with
    | none => worker_go decode bs ps batch results
    | some t =>
      let grown := batch ++ [(p, t)]
      if bs ≤ grown.length then
        worker_go decode bs ps [] (results ++ process_batch grown)
      else worker_go decode bs ps grown results

/-- Embedding of `worker_thread` of `create_embeddings`. -/
def worker_thread {α : Type} (decode : String → Option α)
    (paths : List String) (bs : ℕ) : List (String × α) :=
  worker_go decode bs paths [] []

/-- The end-of-run state of `create_embeddings`: the persisted
`(img_path, embedded)` rows written to the output CSV and the numbers shown
in the final summary prints. -/
structure RunSummary (α : Type) where
  persisted : List (String × α)
  success_count : ℕ
  total_images : ℕ
  error_count : ℕ
deriving DecidableEq

/-- Embedding of `create_embeddings` from the discovered image list onward:
thread-chunk partitioning (failing exactly where `range(0, n, 0)` raises),
per-chunk workers, merged results, and the summary.  `error_count` is `0`
because the source initialises it to `0` and contains no statement that
increments it. -/
def create_embeddings {α : Type} (decode : String → Option α)
    (images : List String) (cuda : Bool) :
    Except PipelineError (RunSummary α) :=
  let nt := num_threads images.length cuda
  let cs := chunk_size images.length cuda
  if cs == 0 then .error .rangeStepZero
  else
    let chunks := merge_trailing_chunk (build_chunks images cs) nt
    let results :=
      (chunks.map fun c =>
        worker_thread decode c (pipeline_batch_size cuda)).flatten
    .ok { persisted := results, success_count := results.length,
          total_images := images.length, error_count := 0 }

/-- C10. With zero discovered image files, `create_embeddings` fails during
thread-chunk partitioning — `chunk_size` is `0 // num_threads = 0` and
`range(0, 0, 0)` raises — instead of completing, so no output CSV row is
ever produced. -/
theorem create_embeddings_empty_folder_raises {α : Type}
    (decode : String → Option α) (cuda : Bool) :
    create_embeddings decode ([] : List String) cuda =
      .error .rangeStepZero := by
  cases cuda <;> rfl

/-- The Scenario C mini-batch: ten discovered images of which `img3` is
corrupt. -/
def demo_images : List String :=
  ["img0", "img1", "img2", "img3", "img4", "img5", "img6", "img7", "img8",
   "img9"]

/-- Decode outcome for the Scenario C mini-batch:
`load_and_preprocess_image` returns `None` for the corrupt `img3` and a
tensor (here the placeholder `1`) for the other nine images. -/
def demo_decode : String → Option ℕ := fun p =>
  if p == "img3" then none else some 1

/-- C5 fails on the code: on a mini-batch of ten images with one corrupt
image, the pipeline does isolate the failure and persists the nine
successful embeddings, but its end-of-run summary reports
`error_count = 0` — the source initialises `error_count` (and
`error_lock`) and prints `Errors encountered: {error_count}`, yet never
increments it, so the failure is absent from the summary (it is only
visible as a transient per-image `print` at failure time). -/
theorem summary_error_count_stuck_at_zero :
    demo_decode "img3" = none ∧
      demo_images.length = 10 ∧
      create_embeddings demo_decode demo_images false =
        .ok { persisted :=
                [("img0", 1), ("img1", 1), ("img2", 1), ("img4", 1),
                 ("img5", 1), ("img6", 1), ("img7", 1), ("img8", 1),
                 ("img9", 1)],
              success_count := 9, total_images := 10, error_count := 0 } := by
  refine ⟨rfl, rfl, ?_⟩
  rfl
